import Mathlib

/-
Verification of the cell_toolbar JupyterLab extension (src/src/index.ts).

The development shallowly embeds the extension code: the per-cell footer
widget (CellFooterWithButton) becomes a record holding its codeVisible flag,
button click handlers become pure functions returning the new footer state
together with the list of command identifiers they dispatch, the command
layer (getCurrent, isEnabled, the four addCommand handlers) is embedded over
an application state carrying the tracker current widget and the shell
current widget, and the load-time collapse policy (collapseAllCodeCells)
becomes a fold over the list of cell widgets. External framework effects
(shell activation, NotebookActions calls) are recorded as an effect list.
-/

namespace CellToolbar

/-- Command identifier constants (the COMMANDS object, src/src/index.ts lines 24-29). -/
def HIDE_CELL_CODE : String := "hide-cell-code"

/-- Command identifier for showing cell code (src/src/index.ts line 26). -/
def SHOW_CELL_CODE : String := "show-cell-code"

/-- Command identifier for running the selected code cell (src/src/index.ts line 27). -/
def RUN_SELECTED_CODECELL : String := "run-selected-codecell"

/-- Command identifier for clearing the selected output (src/src/index.ts line 28). -/
def CLEAR_SELECTED_OUTPUT : String := "clear-output-cell"

/-- Icon class for the run button (src/src/index.ts line 160). -/
def RUN_ICON : String := "fas fa-play-circle"

/-- Icon class for the clear button (src/src/index.ts line 161). -/
def CLEAR_ICON : String := "fas fa-broom"

/-- Icon class shown while code is visible (src/src/index.ts line 162). -/
def HIDE_ICON : String := "fas fa-eye-slash"

/-- Icon class shown while code is hidden (src/src/index.ts line 163). -/
def SHOW_ICON : String := "fas fa-eye"

/-- State of one CellFooterWithButton instance: its private codeVisible flag
(src/src/index.ts line 159). -/
structure CellFooterWithButton where
  codeVisible : Bool
deriving DecidableEq

/-- The constructor sets codeVisible to false (src/src/index.ts line 169). -/
def CellFooterWithButton.new : CellFooterWithButton := ⟨false⟩

/-- The toggle icon chosen during render (src/src/index.ts line 181). -/
def toggleIcon (f : CellFooterWithButton) : String :=
  if f.codeVisible then HIDE_ICON else SHOW_ICON

/-- The onClick handler of the toggle button (src/src/index.ts lines 195-204):
it negates codeVisible, then executes SHOW_CELL_CODE if the new flag is true
and HIDE_CELL_CODE otherwise. Returns the new footer state and the list of
dispatched command identifiers. -/
def toggleOnClick (f : CellFooterWithButton) : CellFooterWithButton × List String :=
  let newVisible := !f.codeVisible
  (⟨newVisible⟩, if newVisible then [SHOW_CELL_CODE] else [HIDE_CELL_CODE])

/-- The onClick handler of the run button (src/src/index.ts lines 186-189):
it only executes RUN_SELECTED_CODECELL and leaves the footer state alone. -/
def runOnClick (f : CellFooterWithButton) : CellFooterWithButton × List String :=
  (f, [RUN_SELECTED_CODECELL])

/-- The onClick handler of the clear button (src/src/index.ts lines 210-213):
it only executes CLEAR_SELECTED_OUTPUT and leaves the footer state alone. -/
def clearOnClick (f : CellFooterWithButton) : CellFooterWithButton × List String :=
  (f, [CLEAR_SELECTED_OUTPUT])

/-- The state part of one toggle click. -/
def toggleState (f : CellFooterWithButton) : CellFooterWithButton :=
  (toggleOnClick f).1

/-- Iterated toggle clicks on the footer state. -/
def iterToggle : Nat → CellFooterWithButton → CellFooterWithButton
  | 0, f => f
  | n + 1, f => iterToggle n (toggleState f)

/-- A DOM click event, reduced to its defaultPrevented flag. -/
structure ClickEvent where
  defaultPrevented : Bool
deriving DecidableEq

/-- The click listener added to the footer node in the constructor
(src/src/index.ts lines 172-175): it calls preventDefault on the event. -/
def footerNodeClickListener (_e : ClickEvent) : ClickEvent := ⟨true⟩

/-- The listeners registered on the footer container node: the constructor
registers exactly the preventDefault listener. -/
def footerNodeListeners : List (ClickEvent → ClickEvent) := [footerNodeClickListener]

/-- Delivering a click event to the footer container node applies every
registered listener to the event. -/
def deliverClick (e : ClickEvent) : ClickEvent :=
  footerNodeListeners.foldl (fun ev listener => listener ev) e

/-- Cell type tags: the code matches model.type against the string code
(src/src/index.ts line 122); the other notebook cell types are markdown and raw. -/
inductive CellType where
  | code
  | markdown
  | raw
deriving DecidableEq

/-- The model of one cell, exposing its type. -/
structure CellModel where
  type : CellType
deriving DecidableEq

/-- One cell widget: its model plus the source-visibility flag the host
renders against (inputHidden true means the source is hidden). -/
structure CellWidget where
  model : CellModel
  inputHidden : Bool
deriving DecidableEq

/-- Whether a cell widget is a code cell (the guard on src/src/index.ts line 122). -/
def isCode (c : CellWidget) : Bool := c.model.type == CellType.code

/-- Effect of the bulk hide on one cell: a code cell gets its source hidden,
any other cell is left unchanged. -/
def hideCell (c : CellWidget) : CellWidget :=
  if isCode c then ⟨c.model, true⟩ else c

/-- Modelled from the spec: NotebookActions.hideAllCode is external framework
code (not under src). Per the spec it is the document-scoped bulk hide-all-code
effect: every cell of type code ends in hidden-source state and cells of other
types are untouched. -/
def hideAllCode (cells : List CellWidget) : List CellWidget :=
  cells.map hideCell

/-- One iteration of the forEach loop in collapseAllCodeCells
(src/src/index.ts lines 121-125): if the visited cell is a code cell, invoke
hideAllCode on the whole notebook content and count the invocation. -/
def collapseStep (acc : List CellWidget × Nat) (cell : CellWidget) : List CellWidget × Nat :=
  if isCode cell then (hideAllCode acc.1, acc.2 + 1) else acc

/-- collapseAllCodeCells (src/src/index.ts lines 118-126): iterate over the
widgets of the notebook and, for each code cell, invoke hideAllCode on the
notebook content. Returns the final cell list and the number of hideAllCode
invocations. -/
def collapseAllCodeCells (cells : List CellWidget) : List CellWidget × Nat :=
  cells.foldl collapseStep (cells, 0)

/-- Application state seen by the command layer: the tracker current widget
and the shell current widget, each an optional widget id (none models null). -/
structure AppState where
  trackerCurrentWidget : Option Nat
  shellCurrentWidget : Option Nat
deriving DecidableEq

/-- External framework effects a command handler can trigger. -/
inductive Effect where
  | activateById (widgetId : Nat)
  | hideCode
  | showCode
  | runCell
  | clearOutputs
deriving DecidableEq

/-- getCurrent (src/src/index.ts lines 41-50): reads tracker.currentWidget,
computes activate as args.activate not being explicitly false, activates the
shell by the widget id when both hold, and returns the widget. The returned
list records the activation effects performed. -/
def getCurrent (argsActivate : Option Bool) (st : AppState) : Option Nat × List Effect :=
  match st.trackerCurrentWidget with
  | some w =>
      if argsActivate != some false then (some w, [Effect.activateById w])
      else (some w, [])
  | none => (none, [])

/-- isEnabled (src/src/index.ts lines 57-62): true when tracker.currentWidget
is not null and equals app.shell.currentWidget. -/
def isEnabled (st : AppState) : Bool :=
  st.trackerCurrentWidget.isSome && st.trackerCurrentWidget == st.shellCurrentWidget

/-- The execute handler of HIDE_CELL_CODE (src/src/index.ts lines 67-73):
resolve the current panel, and if one exists run NotebookActions.hideCode. -/
def hideCellCodeExecute (args : Option Bool) (st : AppState) : List Effect :=
  match getCurrent args st with
  | (some _, eff) => eff ++ [Effect.hideCode]
  | (none, eff) => eff

/-- The execute handler of SHOW_CELL_CODE (src/src/index.ts lines 80-86). -/
def showCellCodeExecute (args : Option Bool) (st : AppState) : List Effect :=
  match getCurrent args st with
  | (some _, eff) => eff ++ [Effect.showCode]
  | (none, eff) => eff

/-- The execute handler of RUN_SELECTED_CODECELL (src/src/index.ts lines 93-98). -/
def runSelectedCodecellExecute (args : Option Bool) (st : AppState) : List Effect :=
  match getCurrent args st with
  | (some _, eff) => eff ++ [Effect.runCell]
  | (none, eff) => eff

/-- The execute handler of CLEAR_SELECTED_OUTPUT (src/src/index.ts lines 105-111). -/
def clearSelectedOutputExecute (args : Option Bool) (st : AppState) : List Effect :=
  match getCurrent args st with
  | (some _, eff) => eff ++ [Effect.clearOutputs]
  | (none, eff) => eff

/-- One registered command: label, execute handler and enablement predicate,
as passed to commands.addCommand. -/
structure CommandEntry where
  label : String
  execute : Option Bool → AppState → List Effect
  isEnabled : AppState → Bool

/-- The four addCommand registrations performed after app.restored
(src/src/index.ts lines 65-113), in source order, each paired with its
command identifier. All four pass the same isEnabled function. -/
def registeredCommands : List (String × CommandEntry) :=
  [ (HIDE_CELL_CODE, ⟨"Hide Cell", hideCellCodeExecute, isEnabled⟩),
    (SHOW_CELL_CODE, ⟨"Show Cell", showCellCodeExecute, isEnabled⟩),
    (RUN_SELECTED_CODECELL, ⟨"Run Cell", runSelectedCodecellExecute, isEnabled⟩),
    (CLEAR_SELECTED_OUTPUT, ⟨"Clear Output", clearSelectedOutputExecute, isEnabled⟩) ]

/-- The four command identifiers registered by activateCommands. -/
def commandIds : List String :=
  [HIDE_CELL_CODE, SHOW_CELL_CODE, RUN_SELECTED_CODECELL, CLEAR_SELECTED_OUTPUT]

/-- Events of the activation timeline: the app restored signal resolving, or a
dispatch of some command identifier. -/
inductive AppEvent where
  | restored
  | dispatch (id : String)
deriving DecidableEq

/-- How the set of registered command identifiers evolves on one event: the
then-callback on app.restored (src/src/index.ts lines 37-114) registers all
four commands; a dispatch registers nothing. -/
def stepEvent (reg : List String) : AppEvent → List String
  | AppEvent.restored => reg ++ commandIds
  | AppEvent.dispatch _ => reg

/-- The registered identifiers after a sequence of events. -/
def runEvents (reg : List String) (events : List AppEvent) : List String :=
  events.foldl stepEvent reg

/-- Outcome of dispatching or querying enablement of an identifier. -/
inductive DispatchOutcome where
  | unknownActionError
  | executed
deriving DecidableEq

/-- Modelled from the spec: the command registry (Lumino CommandRegistry) is
external framework code, not under src. Per the spec, dispatch and enablement
query against an identifier that is not registered fail with
UnknownActionError; a registered identifier is executed. -/
def dispatchOutcome (reg : List String) (id : String) : DispatchOutcome :=
  if id ∈ reg then DispatchOutcome.executed else DispatchOutcome.unknownActionError

/-
Helper lemmas.
-/

/-- Two toggle clicks return the footer state to where it started. -/
lemma toggleState_toggleState (f : CellFooterWithButton) :
    toggleState (toggleState f) = f := by
  rcases f with ⟨v⟩
  cases v <;> rfl

/-- Unfolding one iterated toggle click. -/
lemma iterToggle_succ (n : Nat) (f : CellFooterWithButton) :
    iterToggle (n + 1) f = iterToggle n (toggleState f) := rfl

/-- An even number of toggle clicks is the identity on footer state. -/
lemma iterToggle_two_mul (n : Nat) (f : CellFooterWithButton) :
    iterToggle (2 * n) f = f := by
  induction n generalizing f with
  | zero => rfl
  | succ k ih =>
      have h2 : 2 * (k + 1) = 2 * k + 1 + 1 := by ring
      rw [h2, iterToggle_succ, iterToggle_succ, toggleState_toggleState]
      exact ih f

/-- Hiding one cell twice equals hiding it once. -/
lemma hideCell_hideCell (c : CellWidget) : hideCell (hideCell c) = hideCell c := by
  rcases c with ⟨⟨t⟩, h⟩
  cases t <;> rfl

/-- A cell that is not a code cell is untouched by hideCell. -/
lemma hideCell_of_not_code (c : CellWidget) (h : isCode c = false) : hideCell c = c := by
  simp [hideCell, h]

/-- The bulk hide effect is idempotent. -/
lemma hideAllCode_idem (cells : List CellWidget) :
    hideAllCode (hideAllCode cells) = hideAllCode cells := by
  induction cells with
  | nil => rfl
  | cons c tl ih =>
      show hideCell (hideCell c) :: hideAllCode (hideAllCode tl) = _
      rw [hideCell_hideCell, ih]
      rfl

/-- On a document with no code cell the bulk hide effect is the identity. -/
lemma hideAllCode_of_no_code (cells : List CellWidget) (h : cells.any isCode = false) :
    hideAllCode cells = cells := by
  induction cells with
  | nil => rfl
  | cons c tl ih =>
      rw [List.any_cons, Bool.or_eq_false_iff] at h
      show hideCell c :: hideAllCode tl = c :: tl
      rw [hideCell_of_not_code c h.1, ih h.2]

/-- Closed form of the collapse fold: the final state applies the bulk hide
once when some visited cell is a code cell, and the invocation counter adds
the number of code cells visited. -/
lemma foldl_collapseStep (l : List CellWidget) :
    ∀ (s : List CellWidget) (k : Nat),
      l.foldl collapseStep (s, k) =
        ((if l.any isCode then hideAllCode s else s), k + (l.filter isCode).length) := by
  induction l with
  | nil => intro s k; simp
  | cons c tl ih =>
      intro s k
      by_cases hc : isCode c
      · have hstep : collapseStep (s, k) c = (hideAllCode s, k + 1) := by
          simp [collapseStep, hc]
        rw [List.foldl_cons, hstep, ih]
        have hstate :
            (if tl.any isCode then hideAllCode (hideAllCode s) else hideAllCode s)
              = hideAllCode s := by
          by_cases ht : tl.any isCode <;> simp [ht, hideAllCode_idem]
        rw [hstate, List.any_cons, List.filter_cons]
        simp [hc]
        omega
      · have hstep : collapseStep (s, k) c = (s, k) := by
          simp [collapseStep, hc]
        rw [List.foldl_cons, hstep, ih, List.any_cons, List.filter_cons]
        simp [hc]

/-- collapseAllCodeCells ends in the state of one bulk hide invocation and
counts one invocation per code cell. -/
lemma collapse_spec (cells : List CellWidget) :
    collapseAllCodeCells cells = (hideAllCode cells, (cells.filter isCode).length) := by
  rw [collapseAllCodeCells, foldl_collapseStep]
  by_cases h : cells.any isCode
  · simp [h]
  · simp only [h, if_neg, Nat.zero_add]
    rw [hideAllCode_of_no_code cells (by simpa using h)]
    simp

/-- The enablement predicate in explicit form. -/
lemma isEnabled_iff (st : AppState) :
    isEnabled st = true ↔
      st.trackerCurrentWidget ≠ none ∧ st.trackerCurrentWidget = st.shellCurrentWidget := by
  rcases st with ⟨tc, sc⟩
  simp [isEnabled, Option.isSome_iff_ne_none]

/-- A trace without the restored event registers nothing. -/
lemma runEvents_of_no_restored (l : List AppEvent)
    (h : ∀ e ∈ l, e ≠ AppEvent.restored) :
    ∀ reg, runEvents reg l = reg := by
  induction l with
  | nil => intro reg; rfl
  | cons e tl ih =>
      intro reg
      have htl : ∀ x ∈ tl, x ≠ AppEvent.restored :=
        fun x hx => h x (List.mem_cons_of_mem _ hx)
      cases e with
      | restored => exact absurd rfl (h AppEvent.restored (List.mem_cons_self _ _))
      | dispatch d => exact ih htl reg

/-- Registration is never undone by later events. -/
lemma mem_runEvents_of_mem (l : List AppEvent) :
    ∀ (reg : List String) (id : String), id ∈ reg → id ∈ runEvents reg l := by
  induction l with
  | nil => intro reg id h; exact h
  | cons e tl ih =>
      intro reg id h
      cases e with
      | restored => exact ih _ id (List.mem_append_left _ h)
      | dispatch d => exact ih _ id h

/-
Claim theorems.
-/

/-- Claim C1: a freshly constructed CellFooterWithButton has codeVisible set
to false and its toggle button renders the show icon; every toggle click
flips codeVisible unconditionally and dispatches exactly one command, namely
SHOW_CELL_CODE when the flag becomes true and HIDE_CELL_CODE when it becomes
false; after any even number of toggle clicks the flag equals its initial
value false. -/
theorem claim_C1 :
    CellFooterWithButton.new.codeVisible = false
    ∧ toggleIcon CellFooterWithButton.new = SHOW_ICON
    ∧ (∀ f : CellFooterWithButton, (toggleOnClick f).1.codeVisible = !f.codeVisible)
    ∧ (∀ f : CellFooterWithButton,
        (toggleOnClick f).2 =
          if (toggleOnClick f).1.codeVisible then [SHOW_CELL_CODE] else [HIDE_CELL_CODE])
    ∧ (∀ n : Nat, iterToggle (2 * n) CellFooterWithButton.new = CellFooterWithButton.new) := by
  refine ⟨rfl, rfl, ?_, ?_, ?_⟩
  · intro f; rcases f with ⟨v⟩; cases v <;> rfl
  · intro f; rcases f with ⟨v⟩; cases v <;> rfl
  · intro n; exact iterToggle_two_mul n _

/-- Document with two code cells, both with visible source. -/
def twoCodeCellDoc : List CellWidget :=
  [⟨⟨CellType.code⟩, false⟩, ⟨⟨CellType.code⟩, false⟩]

/-- Claim C2 counterexample: on a document with two code cells the load
policy invokes the bulk hideAllCode effect twice, not once, even though the
document contains at least one code cell. -/
theorem claim_C2_counterexample :
    1 ≤ (twoCodeCellDoc.filter isCode).length
    ∧ (collapseAllCodeCells twoCodeCellDoc).2 ≠ 1 := by
  decide

/-- Claim C2 as amended: the bulk hideAllCode effect is invoked once per code
cell, so its invocation count equals the number of code cells in the
document; because the effect is document-scoped and idempotent, the final
cell list still equals that of a single invocation. -/
theorem claim_C2_amended (cells : List CellWidget) :
    (collapseAllCodeCells cells).2 = (cells.filter isCode).length
    ∧ (collapseAllCodeCells cells).1 = hideAllCode cells := by
  rw [collapse_spec]
  exact ⟨rfl, rfl⟩

/-- Claim C3: there are four registered commands, all four share the single
isEnabled predicate, and that predicate returns false whenever the tracker
current widget is null and returns true exactly when the tracker current
widget is non-null and equals the shell current widget. -/
theorem claim_C3 :
    registeredCommands.length = 4
    ∧ (∀ i : Fin registeredCommands.length,
        (registeredCommands.get i).2.isEnabled = isEnabled)
    ∧ (∀ st : AppState, st.trackerCurrentWidget = none → isEnabled st = false)
    ∧ (∀ st : AppState, isEnabled st = true ↔
        st.trackerCurrentWidget ≠ none
          ∧ st.trackerCurrentWidget = st.shellCurrentWidget) := by
  refine ⟨rfl, ?_, ?_, isEnabled_iff⟩
  · intro i; fin_cases i <;> rfl
  · intro st h; simp [isEnabled, h]

/-- Claim C3 witness at a concrete state with no tracked widget. -/
theorem claim_C3_witness : isEnabled ⟨none, none⟩ = false :=
  claim_C3.2.2.1 ⟨none, none⟩ rfl

/-- Claim C4: when the tracker current widget is null, every one of the four
registered command handlers performs no effect at all (it returns without
mutating anything, and in particular triggers no hide, show, run, clear or
activation effect). -/
theorem claim_C4 (args : Option Bool) (st : AppState)
    (h : st.trackerCurrentWidget = none) (i : Fin registeredCommands.length) :
    (registeredCommands.get i).2.execute args st = [] := by
  rcases st with ⟨tc, sc⟩
  cases h
  fin_cases i <;> rfl

/-- Claim C4 witness: the first registered handler at a concrete state with
no tracked widget. -/
theorem claim_C4_witness :
    (registeredCommands.get ⟨0, by decide⟩).2.execute none ⟨none, some 3⟩ = [] :=
  claim_C4 none ⟨none, some 3⟩ rfl ⟨0, by decide⟩

/-- Claim C5: after the load policy runs on a ready document, every cell
whose model type is code ends with its source hidden, and every cell of any
other type is unchanged. -/
theorem claim_C5 (cells : List CellWidget) (i : Nat) (c : CellWidget)
    (h : cells[i]? = some c) :
    (collapseAllCodeCells cells).1[i]? =
      some (if isCode c then ⟨c.model, true⟩ else c) := by
  rw [collapse_spec]
  show (hideAllCode cells)[i]? = _
  rw [hideAllCode, List.getElem?_map, h]
  rfl

/-- Document with one code cell followed by one markdown cell. -/
def mixedDoc : List CellWidget :=
  [⟨⟨CellType.code⟩, false⟩, ⟨⟨CellType.markdown⟩, false⟩]

/-- Claim C5 witness on a concrete document: the code cell ends hidden. -/
theorem claim_C5_witness :
    (collapseAllCodeCells mixedDoc).1[0]? = some ⟨⟨CellType.code⟩, true⟩ := by
  simpa using claim_C5 mixedDoc 0 ⟨⟨CellType.code⟩, false⟩ (by decide)

/-- Claim C6: getCurrent returns the tracker current widget in all cases; it
produces an activation effect exactly when the widget is non-null and the
activate argument is not explicitly false, and that effect is activateById of
the widget id; when no widget is tracked it returns null with no effect. -/
theorem claim_C6 (args : Option Bool) (st : AppState) :
    (getCurrent args st).1 = st.trackerCurrentWidget
    ∧ ((getCurrent args st).2 ≠ [] ↔
        st.trackerCurrentWidget ≠ none ∧ args ≠ some false)
    ∧ (∀ w : Nat, st.trackerCurrentWidget = some w → args ≠ some false →
        (getCurrent args st).2 = [Effect.activateById w])
    ∧ (st.trackerCurrentWidget = none → getCurrent args st = (none, [])) := by
  rcases st with ⟨tc, sc⟩
  cases tc <;> rcases args with _ | b
  · refine ⟨rfl, by simp [getCurrent], ?_, fun _ => rfl⟩
    intro w hw; exact absurd hw (by simp)
  · cases b
    · refine ⟨rfl, by simp [getCurrent], ?_, fun _ => rfl⟩
      intro w hw; exact absurd hw (by simp)
    · refine ⟨rfl, by simp [getCurrent], ?_, fun _ => rfl⟩
      intro w hw; exact absurd hw (by simp)
  · refine ⟨rfl, by simp [getCurrent], ?_, by simp⟩
    intro w hw _
    simp only [getCurrent]
    simp at hw
    rw [hw]
    rfl
  · cases b
    · refine ⟨rfl, by simp [getCurrent], ?_, by simp⟩
      intro w hw hfalse
      exact absurd rfl hfalse
    · refine ⟨rfl, by simp [getCurrent], ?_, by simp⟩
      intro w hw _
      simp only [getCurrent]
      simp at hw
      rw [hw]
      rfl

/-- Claim C6 witness at a concrete state with a tracked widget and default
activate argument. -/
theorem claim_C6_witness :
    (getCurrent none ⟨some 7, none⟩).1 = some 7
    ∧ (getCurrent none ⟨some 7, none⟩).2 = [Effect.activateById 7] :=
  ⟨(claim_C6 none ⟨some 7, none⟩).1,
   (claim_C6 none ⟨some 7, none⟩).2.2.1 7 rfl (by simp)⟩

/-- Claim C7: along any event trace in which the restored signal has not yet
resolved, the registered-command table is empty, so dispatching (or querying
enablement of) any of the four command identifiers yields UnknownActionError;
and at every point after a restored event, all four identifiers are
registered, so registration completes before any later dispatch. -/
theorem claim_C7 (pre : List AppEvent)
    (hpre : ∀ e ∈ pre, e ≠ AppEvent.restored) :
    (runEvents [] pre = []
      ∧ ∀ id ∈ commandIds,
          dispatchOutcome (runEvents [] pre) id = DispatchOutcome.unknownActionError)
    ∧ (∀ post : List AppEvent, ∀ id ∈ commandIds,
        id ∈ runEvents [] (pre ++ AppEvent.restored :: post)) := by
  have h1 : runEvents [] pre = [] := runEvents_of_no_restored pre hpre []
  refine ⟨⟨h1, ?_⟩, ?_⟩
  · intro id _
    rw [h1]
    simp [dispatchOutcome]
  · intro post id hid
    have h2 : runEvents [] (pre ++ AppEvent.restored :: post)
        = runEvents (runEvents [] pre ++ commandIds) post := by
      rw [runEvents, List.foldl_append]
      rfl
    rw [h2, h1]
    exact mem_runEvents_of_mem post _ id (by simpa using hid)

/-- Claim C7 witness: with no prior events, dispatching HIDE_CELL_CODE fails
with UnknownActionError, and after the restored event it is registered. -/
theorem claim_C7_witness :
    dispatchOutcome (runEvents [] []) HIDE_CELL_CODE = DispatchOutcome.unknownActionError
    ∧ HIDE_CELL_CODE ∈ runEvents [] ([] ++ AppEvent.restored :: []) :=
  ⟨(claim_C7 [] (by simp)).1.2 HIDE_CELL_CODE (by simp [commandIds]),
   (claim_C7 [] (by simp)).2 [] HIDE_CELL_CODE (by simp [commandIds])⟩

/-- Claim C8: every click event delivered to the footer container node ends
with its default action prevented, so a click inside the footer never
triggers the host native collapse or expand gesture. -/
theorem claim_C8 (e : ClickEvent) : (deliverClick e).defaultPrevented = true := by
  rcases e with ⟨b⟩
  rfl

/-- Claim C9: the run button handler and the clear-output button handler
leave codeVisible unchanged and dispatch no visibility command. -/
theorem claim_C9 (f : CellFooterWithButton) :
    (runOnClick f).1 = f
    ∧ (clearOnClick f).1 = f
    ∧ SHOW_CELL_CODE ∉ (runOnClick f).2
    ∧ HIDE_CELL_CODE ∉ (runOnClick f).2
    ∧ SHOW_CELL_CODE ∉ (clearOnClick f).2
    ∧ HIDE_CELL_CODE ∉ (clearOnClick f).2 := by
  refine ⟨rfl, rfl, ?_, ?_, ?_, ?_⟩ <;>
    simp [runOnClick, clearOnClick, SHOW_CELL_CODE, HIDE_CELL_CODE,
      RUN_SELECTED_CODECELL, CLEAR_SELECTED_OUTPUT]

/-- Claim C10: on a document with no code cell, the load policy invokes the
bulk hideAllCode effect zero times and changes no cell. -/
theorem claim_C10 (cells : List CellWidget) (h : ∀ c ∈ cells, isCode c = false) :
    (collapseAllCodeCells cells).2 = 0 ∧ (collapseAllCodeCells cells).1 = cells := by
  rw [collapse_spec]
  constructor
  · simp only [List.length_eq_zero, List.filter_eq_nil_iff]
    intro c hc
    simp [h c hc]
  · refine hideAllCode_of_no_code cells ?_
    simp only [List.any_eq_false]
    intro c hc
    simp [h c hc]

/-- Claim C10 witness on a concrete one-markdown-cell document. -/
theorem claim_C10_witness :
    (collapseAllCodeCells [(⟨⟨CellType.markdown⟩, false⟩ : CellWidget)]).2 = 0 :=
  (claim_C10 [⟨⟨CellType.markdown⟩, false⟩] (by decide)).1

end CellToolbar
